import Mathlib

/-!
Verification of the blood-bank query service (`backend.py`).

The loader pipeline (`load_blood_banks`) is embedded over an explicit
tabular model: a `DataFrame` is a rectangular-ish table of `Cell`s under a
list of column headers.  Numeric cells are modelled as rationals (CSV cells
are decimal literals, hence exact rationals); the geometry layer
(`haversine`, `get_nearby`) works over the real numbers, with the loader's
rational coordinates coerced into ℝ.  A pandas missing cell (float NaN) is
modelled as `Cell.empty`; since the real-number model has no NaN value,
coercing an empty cell with `float()` is modelled as a failure.
-/

/-- A cell of the source table: missing (pandas NaN), a string, or a number. -/
inductive Cell where
  | empty : Cell
  | str (s : String) : Cell
  | num (q : ℚ) : Cell
deriving DecidableEq

/-- The result of `pd.read_csv`: column headers plus the rows of cells,
each row aligned positionally with the headers. -/
structure DataFrame where
  columns : List String
  rows : List (List Cell)
deriving DecidableEq

/-- Mapping from model fields to the CSV column headers (after stripping),
as in `col_mapping` of `backend.py`. -/
def col_mapping : List (String × String) :=
  [("id", "Sr No"), ("name", "Blood Bank Name"), ("address", "Address"),
   ("city", "City"), ("state", "State"), ("latitude", "latitude"),
   ("longitude", "longitude")]

/-- The required CSV column headers (`col_mapping.values()`). -/
def requiredCols : List String := col_mapping.map Prod.snd

/-- The record type constructed per row (`class BloodBank(BaseModel)`).
Coordinates are rationals at load time; `distance` defaults to `None`. -/
structure BloodBank where
  id : String
  name : String
  address : String
  city : String
  state : String
  latitude : ℚ
  longitude : ℚ
  distance : Option ℝ := none

/-- Row access by column label, `row[col]`: the cell at the first index of
`c` among the headers, `Cell.empty` (NaN) when the row is short or the
column is absent. -/
def getCell (cols : List String) (row : List Cell) (c : String) : Cell :=
  match cols.findIdx? (fun h => h == c) with
  | some i => row.getD i Cell.empty
  | none => Cell.empty

/-- One step of `.fillna("")`: a missing cell becomes the empty string. -/
def fillCell : Cell → Cell
  | Cell.empty => Cell.str ""
  | c => c

/-- The column-wise `df[c] = df[c].fillna("")`, restricted to one row. -/
def fillnaCol (cols : List String) (row : List Cell) (c : String) : List Cell :=
  match cols.findIdx? (fun h => h == c) with
  | some i => row.set i (fillCell (row.getD i Cell.empty))
  | none => row

/-- The two fillna statements of `load_blood_banks` applied to one row:
Address first, then City. -/
def fillRow (cols : List String) (row : List Cell) : List Cell :=
  fillnaCol cols (fillnaCol cols row "Address") "City"

/-- The characters of `s.strip()`: leading and trailing whitespace
removed (structurally, so that concrete tables evaluate in the kernel). -/
def trimChars (cs : List Char) : List Char :=
  ((cs.dropWhile Char.isWhitespace).reverse.dropWhile Char.isWhitespace).reverse

/-- Python's `str.strip()` on a header, as used by `df.columns.str.strip()`. -/
def pyStrip (s : String) : String := String.mk (trimChars s.data)

/-- Digit run to a natural number. -/
def digitsToNat (cs : List Char) : ℕ :=
  cs.foldl (fun n c => 10 * n + (c.toNat - 48)) 0

/-- Whether every character is a decimal digit. -/
def allDigits (cs : List Char) : Bool := cs.all (fun c => c.isDigit)

/-- The exponent part of a Python float literal: optional sign, then a
nonempty digit run. -/
def pyParseExp (cs : List Char) : Option ℤ :=
  match cs with
  | '+' :: rest =>
      if !rest.isEmpty && allDigits rest then some (digitsToNat rest) else none
  | '-' :: rest =>
      if !rest.isEmpty && allDigits rest then some (-(digitsToNat rest : ℤ)) else none
  | rest =>
      if !rest.isEmpty && allDigits rest then some (digitsToNat rest) else none

/-- The mantissa of a Python float literal: digits with an optional decimal
point, not both sides empty (`"1."`, `".5"`, `"12"` parse; `"."` does not). -/
def pyParseMantissa (cs : List Char) : Option ℚ :=
  match cs.splitOn '.' with
  | [ip] =>
      if !ip.isEmpty && allDigits ip then some (digitsToNat ip) else none
  | [ip, fp] =>
      if (!ip.isEmpty || !fp.isEmpty) && allDigits ip && allDigits fp then
        some ((digitsToNat (ip ++ fp) : ℚ) / (10 : ℚ) ^ fp.length)
      else none
  | _ => none

/-- Python's `float(str)` on the exactly-representable literals: optional
surrounding whitespace, optional sign, mantissa, optional exponent.  The
`inf`/`nan` spellings and digit-group underscores are not modelled (no
NaN/infinity exists in the rational model). -/
def pyParseFloat (s : String) : Option ℚ :=
  let cs := trimChars s.toList
  let signed : ℚ × List Char :=
    match cs with
    | '+' :: rest => (1, rest)
    | '-' :: rest => (-1, rest)
    | rest => (1, rest)
  let body := (signed.2).span (fun c => !(c == 'e' || c == 'E'))
  match body.2 with
  | [] => (pyParseMantissa body.1).map (fun m => signed.1 * m)
  | _ :: expPart =>
      match pyParseMantissa body.1, pyParseExp expPart with
      | some m, some e => some (signed.1 * m * (10 : ℚ) ^ e)
      | _, _ => none

/-- Python's `str()` of a cell (always succeeds; `str(nan) = "nan"`; the
decimal rendering of a number is abstracted as ℚ's `toString`). -/
def pyStr : Cell → String
  | Cell.str s => s
  | Cell.num q => toString q
  | Cell.empty => "nan"

/-- Pydantic coercion into a `str` field: only string cells are accepted;
a numeric or missing (NaN) value fails validation. -/
def asStr : Cell → Option String
  | Cell.str s => some s
  | _ => none

/-- Python's `float(cell)`: a number passes through, a string is parsed,
and a missing cell fails in this model (see the header note on NaN). -/
def pyFloat : Cell → Option ℚ
  | Cell.num q => some q
  | Cell.str s => pyParseFloat s
  | Cell.empty => none

/-- The per-row `BloodBank(...)` construction inside the loader's loop:
`None` is returned exactly when the original code would raise and skip the
row.  The row passed here already has Address/City filled. -/
def buildBank (cols : List String) (row : List Cell) : Option BloodBank :=
  match asStr (getCell cols row "Blood Bank Name"), asStr (getCell cols row "Address"),
        asStr (getCell cols row "City"), asStr (getCell cols row "State"),
        pyFloat (getCell cols row "latitude"), pyFloat (getCell cols row "longitude") with
  | some nm, some ad, some ci, some st, some la, some lo =>
      some { id := pyStr (getCell cols row "Sr No"), name := nm, address := ad,
             city := ci, state := st, latitude := la, longitude := lo }
  | _, _, _, _, _, _ => none

/-- The loader's failure modes: the CSV file is absent, or required
columns are missing from the headers. -/
inductive LoadError where
  | fileNotFound : LoadError
  | schemaError (missing : List String) : LoadError
deriving DecidableEq

/-- The required columns absent from the (stripped) headers, in
`col_mapping` order — `missing_cols` of `load_blood_banks`. -/
def missingCols (cols : List String) : List String :=
  requiredCols.filter (fun c => !cols.contains c)

/-- `load_blood_banks()`: check the file exists, strip headers, check the
schema, fill Address/City, then construct records row by row, skipping
rows whose construction fails. -/
def load_blood_banks (src : Option DataFrame) : Except LoadError (List BloodBank) :=
  match src with
  | none => Except.error LoadError.fileNotFound
  | some df =>
      let cols := df.columns.map pyStrip
      match missingCols cols with
      | [] => Except.ok ((df.rows.map (fillRow cols)).filterMap (buildBank cols))
      | missing => Except.error (LoadError.schemaError missing)

/-- The query origin (`class Location(BaseModel)`), over the reals. -/
structure Location where
  latitude : ℝ
  longitude : ℝ

/-- `math.radians`: degrees to radians. -/
noncomputable def radians (x : ℝ) : ℝ := x * Real.pi / 180

/-- `math.atan2(y, x)`: the angle of the point `(x, y)` in `(-π, π]`,
by the usual case split (IEEE signed zeros have no real counterpart;
`atan2 0 0 = 0` as in Python). -/
noncomputable def atan2 (y x : ℝ) : ℝ :=
  if 0 < x then Real.arctan (y / x)
  else if x < 0 then
    if 0 ≤ y then Real.arctan (y / x) + Real.pi else Real.arctan (y / x) - Real.pi
  else
    if 0 < y then Real.pi / 2 else if y < 0 then -(Real.pi / 2) else 0

/-- The `haversine` function of `backend.py`, verbatim over ℝ. -/
noncomputable def haversine (lat1 lon1 lat2 lon2 : ℝ) : ℝ :=
  let R : ℝ := 6371
  let dlat := radians (lat2 - lat1)
  let dlon := radians (lon2 - lon1)
  let a := Real.sin (dlat / 2) ^ 2 +
    Real.cos (radians lat1) * Real.cos (radians lat2) * Real.sin (dlon / 2) ^ 2
  R * 2 * atan2 (Real.sqrt a) (Real.sqrt (1 - a))

/-- The sort key `lambda x: x.distance`; at sorting time every record's
distance has just been populated, so the `getD` default is never read. -/
noncomputable def distKey (b : BloodBank) : ℝ := (b.distance).getD 0

/-- The comparison used by Python's stable `sorted` on the distance key. -/
noncomputable def bankLE (a b : BloodBank) : Bool := decide (distKey a ≤ distKey b)

/-- The annotation step of `get_nearby`'s loop:
`bank.distance = haversine(location..., bank...)`. -/
noncomputable def annotate (loc : Location) (bank : BloodBank) : BloodBank :=
  { bank with
    distance := some (haversine loc.latitude loc.longitude
      (bank.latitude : ℝ) (bank.longitude : ℝ)) }

/-- The `/nearby` handler after loading: populate every distance, then
`sorted(banks, key=lambda x: x.distance)[:10]` (a stable sort, modelled by
`List.mergeSort`). -/
noncomputable def get_nearby (banks : List BloodBank) (loc : Location) : List BloodBank :=
  (((banks.map (annotate loc)).mergeSort bankLE).take 10)

/-- The records of `l` lying at exactly distance `d` from the origin, in
order — used to state stability of the ranking. -/
noncomputable def filterAtDist (l : List BloodBank) (d : ℝ) : List BloodBank :=
  l.filter (fun b => decide (distKey b = d))

/-- `GRAPHHOPPER_KEY = os.getenv("GRAPHHOPPER_API_KEY", "9e9f…")`:
the configured credential, or the hardcoded fallback when the environment
variable is absent. -/
def GRAPHHOPPER_KEY (env : Option String) : String :=
  env.getD "9e9f9e52-ce51-4f10-b4e4-f3fd74b63123"

/-- The outbound request `get_route` builds for the GraphHopper API. -/
structure RouteRequest where
  url : String
  points : List (ℚ × ℚ)
  vehicle : String
  key : String
  points_encoded : String
deriving DecidableEq

/-- The configuration failure of the route handler. -/
inductive RouteError where
  | configError (msg : String) : RouteError
deriving DecidableEq

/-- The `/route` handler up to the outbound call: fail when the key is
falsy (empty), otherwise issue exactly one request with the fixed
parameters. -/
def get_route (env : Option String) (start_lat start_lon end_lat end_lon : ℚ) :
    Except RouteError RouteRequest :=
  if GRAPHHOPPER_KEY env = "" then
    Except.error (RouteError.configError "Graphhopper API key not configured")
  else
    Except.ok { url := "https://graphhopper.com/api/1/route",
                points := [(start_lat, start_lon), (end_lat, end_lon)],
                vehicle := "car",
                key := GRAPHHOPPER_KEY env,
                points_encoded := "false" }

/-- How many outbound calls to the routing service an outcome of
`get_route` represents. -/
def outboundCalls : Except RouteError RouteRequest → ℕ
  | Except.ok _ => 1
  | Except.error _ => 0

/-- `haversine` with its local variables flattened out (definitionally). -/
theorem haversine_unfold (lat1 lon1 lat2 lon2 : ℝ) :
    haversine lat1 lon1 lat2 lon2 =
      6371 * 2 * atan2
        (Real.sqrt (Real.sin (radians (lat2 - lat1) / 2) ^ 2 +
          Real.cos (radians lat1) * Real.cos (radians lat2) *
            Real.sin (radians (lon2 - lon1) / 2) ^ 2))
        (Real.sqrt (1 - (Real.sin (radians (lat2 - lat1) / 2) ^ 2 +
          Real.cos (radians lat1) * Real.cos (radians lat2) *
            Real.sin (radians (lon2 - lon1) / 2) ^ 2))) := rfl

/-- The haversine formula exactly as the specification words it: the `a`
term built from radian differences and radian latitudes, and the distance
`2·R·atan2(√a, √(1−a))` with `R = 6371`. -/
noncomputable def haversineSpecFormula (lat1 lon1 lat2 lon2 : ℝ) : ℝ :=
  2 * 6371 * atan2
    (Real.sqrt (Real.sin ((radians lat2 - radians lat1) / 2) ^ 2 +
      Real.cos (radians lat1) * Real.cos (radians lat2) *
        Real.sin ((radians lon2 - radians lon1) / 2) ^ 2))
    (Real.sqrt (1 - (Real.sin ((radians lat2 - radians lat1) / 2) ^ 2 +
      Real.cos (radians lat1) * Real.cos (radians lat2) *
        Real.sin ((radians lon2 - radians lon1) / 2) ^ 2)))

/-- C2: for all coordinates, `haversine` computes exactly the
specification's formula `2·R·atan2(√a, √(1−a))` with `R = 6371` and
`a = sin²(Δlat/2) + cos(lat1)·cos(lat2)·sin²(Δlon/2)`, all angles and
differences taken in radians. -/
theorem haversine_matches_spec_formula (lat1 lon1 lat2 lon2 : ℝ) :
    haversine lat1 lon1 lat2 lon2 = haversineSpecFormula lat1 lon1 lat2 lon2 := by
  rw [haversine_unfold]
  unfold haversineSpecFormula
  have hlat : radians (lat2 - lat1) / 2 = (radians lat2 - radians lat1) / 2 := by
    unfold radians; ring
  have hlon : radians (lon2 - lon1) / 2 = (radians lon2 - radians lon1) / 2 := by
    unfold radians; ring
  rw [hlat, hlon]
  ring

/-- C7: the haversine distance from a point to itself is zero, and the
function is symmetric in its two points. -/
theorem haversine_self_zero_and_symm :
    (∀ lat lon : ℝ, haversine lat lon lat lon = 0) ∧
    (∀ lat1 lon1 lat2 lon2 : ℝ,
      haversine lat1 lon1 lat2 lon2 = haversine lat2 lon2 lat1 lon1) := by
  constructor
  · intro lat lon
    rw [haversine_unfold]
    have h0 : radians (lat - lat) = 0 := by unfold radians; ring
    have h1 : radians (lon - lon) = 0 := by unfold radians; ring
    rw [h0, h1]
    simp [atan2, Real.sqrt_one, zero_lt_one, Real.arctan_zero]
  · intro lat1 lon1 lat2 lon2
    rw [haversine_unfold, haversine_unfold]
    have e1 : Real.sin (radians (lat1 - lat2) / 2) ^ 2 =
        Real.sin (radians (lat2 - lat1) / 2) ^ 2 := by
      have h : radians (lat1 - lat2) = -(radians (lat2 - lat1)) := by
        unfold radians; ring
      rw [h, neg_div, Real.sin_neg]; ring
    have e2 : Real.sin (radians (lon1 - lon2) / 2) ^ 2 =
        Real.sin (radians (lon2 - lon1) / 2) ^ 2 := by
      have h : radians (lon1 - lon2) = -(radians (lon2 - lon1)) := by
        unfold radians; ring
      rw [h, neg_div, Real.sin_neg]; ring
    have hA : Real.sin (radians (lat1 - lat2) / 2) ^ 2 +
        Real.cos (radians lat2) * Real.cos (radians lat1) *
          Real.sin (radians (lon1 - lon2) / 2) ^ 2 =
        Real.sin (radians (lat2 - lat1) / 2) ^ 2 +
        Real.cos (radians lat1) * Real.cos (radians lat2) *
          Real.sin (radians (lon2 - lon1) / 2) ^ 2 := by
      rw [e1, e2]; ring
    rw [hA]

/-- A successfully constructed record leaves `distance` at its default
`None`. -/
theorem buildBank_distance {cols : List String} {row : List Cell} {b : BloodBank}
    (h : buildBank cols row = some b) : b.distance = none := by
  unfold buildBank at h
  split at h
  · cases h; rfl
  · exact Option.noConfusion h

/-- C3: the nearby operation returns exactly `min 10 n` records, `n` being
the number of loaded records it ranks. -/
theorem nearby_length_min (banks : List BloodBank) (loc : Location) :
    (get_nearby banks loc).length = min 10 banks.length := by
  unfold get_nearby
  simp

/-- C1: the nearby result is sorted non-decreasing by haversine distance
from the origin, and the records at any fixed distance appear in the same
relative order as in the loaded (annotated) sequence. -/
theorem nearby_sorted_and_stable (banks : List BloodBank) (loc : Location) :
    List.Sorted (fun a b => distKey a ≤ distKey b) (get_nearby banks loc) ∧
    ∀ d : ℝ, List.Sublist (filterAtDist (get_nearby banks loc) d)
      (filterAtDist (banks.map (annotate loc)) d) := by
  have htrans : ∀ (a b c : BloodBank), bankLE a b → bankLE b c → bankLE a c := by
    intro a b c h1 h2
    simp only [bankLE, decide_eq_true_eq] at h1 h2 ⊢
    exact le_trans h1 h2
  have htotal : ∀ (a b : BloodBank), bankLE a b || bankLE b a := by
    intro a b
    simp only [bankLE, Bool.or_eq_true, decide_eq_true_eq]
    exact le_total _ _
  unfold get_nearby
  constructor
  · have hs := List.sorted_mergeSort htrans htotal (banks.map (annotate loc))
    have ht := List.Pairwise.sublist (List.take_sublist 10 _) hs
    exact ht.imp (fun h => by simpa [bankLE] using h)
  · intro d
    have hpw : (filterAtDist (banks.map (annotate loc)) d).Pairwise
        (fun a b => bankLE a b) := by
      apply List.pairwise_of_forall_mem_list
      intro a ha b hb
      have ha' : distKey a = d := by
        unfold filterAtDist at ha
        simpa using (List.mem_filter.mp ha).2
      have hb' : distKey b = d := by
        unfold filterAtDist at hb
        simpa using (List.mem_filter.mp hb).2
      simp [bankLE, ha', hb']
    have hsub1 : List.Sublist (filterAtDist (banks.map (annotate loc)) d)
        ((banks.map (annotate loc)).mergeSort bankLE) :=
      List.sublist_mergeSort htrans htotal hpw (List.filter_sublist _)
    have hsub2 : List.Sublist
        (filterAtDist (((banks.map (annotate loc)).mergeSort bankLE).take 10) d)
        (filterAtDist ((banks.map (annotate loc)).mergeSort bankLE) d) :=
      List.Sublist.filter _ (List.take_sublist 10 _)
    have hsub1' : List.Sublist (filterAtDist (banks.map (annotate loc)) d)
        (filterAtDist ((banks.map (annotate loc)).mergeSort bankLE) d) := by
      have h := List.Sublist.filter (fun b => decide (distKey b = d)) hsub1
      unfold filterAtDist at h ⊢
      simpa [List.filter_filter] using h
    have hperm : List.Perm (filterAtDist ((banks.map (annotate loc)).mergeSort bankLE) d)
        (filterAtDist (banks.map (annotate loc)) d) := by
      unfold filterAtDist
      exact (List.mergeSort_perm _ _).filter _
    have heq : filterAtDist (banks.map (annotate loc)) d =
        filterAtDist ((banks.map (annotate loc)).mergeSort bankLE) d :=
      hsub1'.eq_of_length hperm.length_eq.symm
    rw [← heq] at hsub2
    exact hsub2

/-- C8: every record the ranking returns carries the haversine distance
from the origin to its own coordinates, while every record the loader
returns carries no distance. -/
theorem distance_populated_only_by_ranking (banks : List BloodBank) (loc : Location)
    (src : Option DataFrame) :
    (get_nearby banks loc).Forall (fun b => b.distance =
      some (haversine loc.latitude loc.longitude (b.latitude : ℝ) (b.longitude : ℝ))) ∧
    ((load_blood_banks src).toOption.getD []).Forall (fun b => b.distance = none) := by
  constructor
  · rw [List.forall_iff_forall_mem]
    intro b hb
    unfold get_nearby at hb
    have hb1 : b ∈ (banks.map (annotate loc)).mergeSort bankLE := List.mem_of_mem_take hb
    have hb2 : b ∈ banks.map (annotate loc) := List.mem_mergeSort.mp hb1
    obtain ⟨a, ha, rfl⟩ := List.mem_map.mp hb2
    simp [annotate]
  · cases src with
    | none => simp [load_blood_banks]
    | some df =>
      cases hm : missingCols (df.columns.map pyStrip) with
      | nil =>
        rw [List.forall_iff_forall_mem]
        intro b hb
        simp only [load_blood_banks, hm, Except.toOption, Option.getD] at hb
        obtain ⟨row, hrow, hbuild⟩ := List.mem_filterMap.mp hb
        exact buildBank_distance hbuild
      | cons c cs => simp [load_blood_banks, hm, Except.toOption]

/-- C4: when the required columns are all present, the load succeeds and
returns exactly the per-row constructions in original row order — rows
whose construction fails are omitted, each succeeding row contributes
exactly one record in place, and the output cannot be longer than the
input. -/
theorem load_ok_filterMap_rows (df : DataFrame)
    (h : missingCols (df.columns.map pyStrip) = []) :
    load_blood_banks (some df) =
      Except.ok (df.rows.filterMap (fun row =>
        buildBank (df.columns.map pyStrip)
          (fillRow (df.columns.map pyStrip) row))) ∧
    (df.rows.filterMap (fun row =>
        buildBank (df.columns.map pyStrip)
          (fillRow (df.columns.map pyStrip) row))).length ≤
      df.rows.length := by
  constructor
  · simp only [load_blood_banks, h]
    rw [List.filterMap_map]
    rfl
  · exact List.length_filterMap_le _ _

/-- C4 witness: a concrete three-row table — one fully valid row, one with
an unparseable latitude, one with a missing state — loads to exactly the
valid rows, in order. -/
theorem load_ok_filterMap_rows_witness :
    missingCols ((DataFrame.mk
        ["Sr No", "Blood Bank Name", "Address", "City", "State", "latitude", "longitude"]
        [[Cell.str "1", Cell.str "Alpha", Cell.str "12 Way", Cell.str "Pune",
          Cell.str "MH", Cell.str "18.52", Cell.str "73.85"],
         [Cell.str "2", Cell.str "Beta", Cell.empty, Cell.str "Pune",
          Cell.str "MH", Cell.str "abc", Cell.str "73.85"],
         [Cell.str "3", Cell.str "Gamma", Cell.str "9 Ave", Cell.str "Pune",
          Cell.empty, Cell.str "18.60", Cell.str "73.90"]]).columns.map pyStrip) = [] ∧
    (load_blood_banks (some (DataFrame.mk
        ["Sr No", "Blood Bank Name", "Address", "City", "State", "latitude", "longitude"]
        [[Cell.str "1", Cell.str "Alpha", Cell.str "12 Way", Cell.str "Pune",
          Cell.str "MH", Cell.str "18.52", Cell.str "73.85"],
         [Cell.str "2", Cell.str "Beta", Cell.empty, Cell.str "Pune",
          Cell.str "MH", Cell.str "abc", Cell.str "73.85"],
         [Cell.str "3", Cell.str "Gamma", Cell.str "9 Ave", Cell.str "Pune",
          Cell.empty, Cell.str "18.60", Cell.str "73.90"]])) =
      Except.ok ((DataFrame.mk
        ["Sr No", "Blood Bank Name", "Address", "City", "State", "latitude", "longitude"]
        [[Cell.str "1", Cell.str "Alpha", Cell.str "12 Way", Cell.str "Pune",
          Cell.str "MH", Cell.str "18.52", Cell.str "73.85"],
         [Cell.str "2", Cell.str "Beta", Cell.empty, Cell.str "Pune",
          Cell.str "MH", Cell.str "abc", Cell.str "73.85"],
         [Cell.str "3", Cell.str "Gamma", Cell.str "9 Ave", Cell.str "Pune",
          Cell.empty, Cell.str "18.60", Cell.str "73.90"]]).rows.filterMap (fun row =>
        buildBank (["Sr No", "Blood Bank Name", "Address", "City", "State", "latitude",
            "longitude"].map pyStrip)
          (fillRow (["Sr No", "Blood Bank Name", "Address", "City", "State", "latitude",
            "longitude"].map pyStrip) row))) ∧
      ((DataFrame.mk
        ["Sr No", "Blood Bank Name", "Address", "City", "State", "latitude", "longitude"]
        [[Cell.str "1", Cell.str "Alpha", Cell.str "12 Way", Cell.str "Pune",
          Cell.str "MH", Cell.str "18.52", Cell.str "73.85"],
         [Cell.str "2", Cell.str "Beta", Cell.empty, Cell.str "Pune",
          Cell.str "MH", Cell.str "abc", Cell.str "73.85"],
         [Cell.str "3", Cell.str "Gamma", Cell.str "9 Ave", Cell.str "Pune",
          Cell.empty, Cell.str "18.60", Cell.str "73.90"]]).rows.filterMap (fun row =>
        buildBank (["Sr No", "Blood Bank Name", "Address", "City", "State", "latitude",
            "longitude"].map pyStrip)
          (fillRow (["Sr No", "Blood Bank Name", "Address", "City", "State", "latitude",
            "longitude"].map pyStrip) row))).length ≤ 3) :=
  ⟨by decide, load_ok_filterMap_rows _ (by decide)⟩

/-- C5: when some required column is absent from the stripped headers, the
load fails with a schema error carrying exactly the missing column names
(and hence returns no record set); the witnessing absent column is among
the names carried by the error. -/
theorem load_missing_column_schema_error (df : DataFrame) (c : String)
    (hreq : c ∈ requiredCols) (habs : c ∉ df.columns.map pyStrip) :
    load_blood_banks (some df) =
      Except.error (LoadError.schemaError (missingCols (df.columns.map pyStrip))) ∧
    c ∈ missingCols (df.columns.map pyStrip) := by
  have hc : c ∈ missingCols (df.columns.map pyStrip) := by
    unfold missingCols
    refine List.mem_filter.mpr ⟨hreq, ?_⟩
    simpa using habs
  refine ⟨?_, hc⟩
  unfold load_blood_banks
  cases hm : missingCols (df.columns.map pyStrip) with
  | nil => rw [hm] at hc; exact absurd hc (List.not_mem_nil c)
  | cons m ms => simp only [hm]

/-- C5 witness: a concrete table lacking the `State` column fails with a
schema error naming `State`, and no records are returned. -/
theorem load_missing_column_schema_error_witness :
    "State" ∈ requiredCols ∧
    "State" ∉ (DataFrame.mk
      ["Sr No", "Blood Bank Name", "Address", "City", "latitude", "longitude"]
      [[Cell.str "1", Cell.str "Alpha", Cell.str "12 Way", Cell.str "Pune",
        Cell.num 18, Cell.num 73]]).columns.map pyStrip ∧
    (load_blood_banks (some (DataFrame.mk
        ["Sr No", "Blood Bank Name", "Address", "City", "latitude", "longitude"]
        [[Cell.str "1", Cell.str "Alpha", Cell.str "12 Way", Cell.str "Pune",
          Cell.num 18, Cell.num 73]])) =
      Except.error (LoadError.schemaError (missingCols ((DataFrame.mk
        ["Sr No", "Blood Bank Name", "Address", "City", "latitude", "longitude"]
        [[Cell.str "1", Cell.str "Alpha", Cell.str "12 Way", Cell.str "Pune",
          Cell.num 18, Cell.num 73]]).columns.map pyStrip))) ∧
      "State" ∈ missingCols ((DataFrame.mk
        ["Sr No", "Blood Bank Name", "Address", "City", "latitude", "longitude"]
        [[Cell.str "1", Cell.str "Alpha", Cell.str "12 Way", Cell.str "Pune",
          Cell.num 18, Cell.num 73]]).columns.map pyStrip)) :=
  ⟨by decide, by decide,
    load_missing_column_schema_error _ "State" (by decide) (by decide)⟩

/-- C6, evaluated at the failing input: with no credential configured in
the environment, `get_route` does not fail with a configuration error —
it issues exactly one outbound call, using the fallback key hardcoded at
the `GRAPHHOPPER_KEY` assignment (whose own comment claims the default is
the empty string). -/
theorem route_no_env_key_still_calls_upstream :
    get_route none 0 0 1 1 =
      Except.ok { url := "https://graphhopper.com/api/1/route",
                  points := [((0 : ℚ), (0 : ℚ)), ((1 : ℚ), (1 : ℚ))],
                  vehicle := "car",
                  key := "9e9f9e52-ce51-4f10-b4e4-f3fd74b63123",
                  points_encoded := "false" } ∧
    outboundCalls (get_route none 0 0 1 1) = 1 := by
  constructor <;> rfl

/-- A successfully constructed record's `id` is `str()` of the row's
`Sr No` cell. -/
theorem buildBank_id {cols : List String} {row : List Cell} {b : BloodBank}
    (h : buildBank cols row = some b) : b.id = pyStr (getCell cols row "Sr No") := by
  unfold buildBank at h
  split at h
  · cases h; rfl
  · exact Option.noConfusion h

/-- C9 counterexample: a table whose single row carries `"7"` in its
`Sr No` column loads to a record with id `"7"`, which is neither the
zero-based nor the one-based row ordinal rendered as a string. -/
theorem load_id_not_row_ordinal :
    ((load_blood_banks (some (DataFrame.mk
        ["Sr No", "Blood Bank Name", "Address", "City", "State", "latitude", "longitude"]
        [[Cell.str "7", Cell.str "Alpha", Cell.str "12 Way", Cell.str "Pune",
          Cell.str "MH", Cell.num 18, Cell.num 73]]))).toOption.getD []).map
      BloodBank.id = ["7"] ∧
    ("7" : String) ≠ "0" ∧ ("7" : String) ≠ "1" :=
  ⟨rfl, by decide, by decide⟩

/-- Filling one column leaves the cells of every other column unchanged. -/
theorem getCell_fillnaCol_ne (cols : List String) (row : List Cell) (c c' : String)
    (hne : c ≠ c') : getCell cols (fillnaCol cols row c') c = getCell cols row c := by
  unfold fillnaCol getCell
  cases hj : cols.findIdx? (fun h => h == c') with
  | none => rfl
  | some j =>
    cases hi : cols.findIdx? (fun h => h == c) with
    | none => rfl
    | some i =>
      have hij : j ≠ i := by
        intro e
        obtain ⟨hlt, hp, -⟩ := List.findIdx?_eq_some_iff_getElem.mp hi
        obtain ⟨hlt', hp', -⟩ := List.findIdx?_eq_some_iff_getElem.mp hj
        subst e
        apply hne
        have h1 : cols[j] = c := by simpa using hp
        have h2 : cols[j] = c' := by simpa using hp'
        rw [← h1, h2]
      simp [List.getD_eq_getElem?_getD, List.getElem?_set_ne hij]

/-- Filling a present column turns exactly its own cell into the filled
cell, provided the row really has a cell under every header. -/
theorem getCell_fillnaCol_self (cols : List String) (row : List Cell) (c : String)
    (hmem : c ∈ cols) (hlen : cols.length ≤ row.length) :
    getCell cols (fillnaCol cols row c) c = fillCell (getCell cols row c) := by
  unfold fillnaCol getCell
  cases hi : cols.findIdx? (fun h => h == c) with
  | none =>
    rw [List.findIdx?_eq_none_iff] at hi
    have hcc := hi c hmem
    simp at hcc
  | some i =>
    obtain ⟨hlt, -, -⟩ := List.findIdx?_eq_some_iff_getElem.mp hi
    have hilt : i < row.length := lt_of_lt_of_le hlt hlen
    simp [List.getD_eq_getElem?_getD, List.getElem?_set_self hilt]

/-- The Address/City fill steps do not touch any other column's cells. -/
theorem getCell_fillRow_ne (cols : List String) (row : List Cell) (c : String)
    (h1 : c ≠ "Address") (h2 : c ≠ "City") :
    getCell cols (fillRow cols row) c = getCell cols row c := by
  unfold fillRow
  rw [getCell_fillnaCol_ne cols _ c "City" h2, getCell_fillnaCol_ne cols row c "Address" h1]

/-- A required column present in headers whose absent-column check passed. -/
theorem mem_of_missingCols_nil {cols : List String} (h : missingCols cols = [])
    {c : String} (hc : c ∈ requiredCols) : c ∈ cols := by
  unfold missingCols at h
  rw [List.filter_eq_nil_iff] at h
  have := h c hc
  simpa using this

/-- Pydantic accepts a `str` field exactly from a string cell. -/
theorem asStr_eq_some {c : Cell} {s : String} (h : asStr c = some s) : c = Cell.str s := by
  cases c with
  | empty => exact Option.noConfusion h
  | str t => unfold asStr at h; cases h; rfl
  | num q => exact Option.noConfusion h

/-- The field equations a successful per-row construction satisfies. -/
theorem buildBank_fields {cols : List String} {row : List Cell} {b : BloodBank}
    (h : buildBank cols row = some b) :
    asStr (getCell cols row "Blood Bank Name") = some b.name ∧
    asStr (getCell cols row "Address") = some b.address ∧
    asStr (getCell cols row "City") = some b.city ∧
    asStr (getCell cols row "State") = some b.state ∧
    pyFloat (getCell cols row "latitude") = some b.latitude ∧
    pyFloat (getCell cols row "longitude") = some b.longitude := by
  unfold buildBank at h
  split at h
  · rename_i nm ad ci st la lo h1 h2 h3 h4 h5 h6
    cases h
    exact ⟨h1, h2, h3, h4, h5, h6⟩
  · exact Option.noConfusion h

/-- C9 (amended): every record the loader returns takes its `id` from the
`str()` of its own source row's `Sr No` cell (not from the row's position). -/
theorem load_id_eq_str_srno (df : DataFrame)
    (h : missingCols (df.columns.map pyStrip) = []) (b : BloodBank)
    (hb : b ∈ (load_blood_banks (some df)).toOption.getD []) :
    ∃ row ∈ df.rows,
      buildBank (df.columns.map pyStrip) (fillRow (df.columns.map pyStrip) row) = some b ∧
      b.id = pyStr (getCell (df.columns.map pyStrip) row "Sr No") := by
  simp only [load_blood_banks, h, Except.toOption, Option.getD] at hb
  rw [List.filterMap_map] at hb
  obtain ⟨row, hrow, hbuild⟩ := List.mem_filterMap.mp hb
  refine ⟨row, hrow, hbuild, ?_⟩
  rw [buildBank_id hbuild]
  rw [getCell_fillRow_ne _ _ _ (by decide) (by decide)]

/-- The concrete single-row table used to exercise the amended C9. -/
def dfSr : DataFrame :=
  DataFrame.mk
    ["Sr No", "Blood Bank Name", "Address", "City", "State", "latitude", "longitude"]
    [[Cell.str "7", Cell.str "Alpha", Cell.str "12 Way", Cell.str "Pune",
      Cell.str "MH", Cell.num 18, Cell.num 73]]

/-- The record `dfSr` loads to. -/
def bankSr : BloodBank :=
  { id := "7", name := "Alpha", address := "12 Way", city := "Pune",
    state := "MH", latitude := 18, longitude := 73 }

/-- C9 (amended) witness: on `dfSr` the single returned record's id is the
`str()` of its row's `Sr No` cell. -/
theorem load_id_eq_str_srno_witness :
    missingCols (dfSr.columns.map pyStrip) = [] ∧
    bankSr ∈ (load_blood_banks (some dfSr)).toOption.getD [] ∧
    (∃ row ∈ dfSr.rows,
      buildBank (dfSr.columns.map pyStrip) (fillRow (dfSr.columns.map pyStrip) row) =
        some bankSr ∧
      bankSr.id = pyStr (getCell (dfSr.columns.map pyStrip) row "Sr No")) := by
  have hmem : bankSr ∈ (load_blood_banks (some dfSr)).toOption.getD [] := by
    have hred : (load_blood_banks (some dfSr)).toOption.getD [] = [bankSr] := rfl
    rw [hred]
    exact List.mem_singleton_self bankSr
  exact ⟨by decide, hmem, load_id_eq_str_srno dfSr (by decide) bankSr hmem⟩

/-- Filling a column never changes the row's length. -/
theorem length_fillnaCol (cols : List String) (row : List Cell) (c : String) :
    (fillnaCol cols row c).length = row.length := by
  unfold fillnaCol
  cases h : cols.findIdx? (fun h => h == c) with
  | none => rfl
  | some i => simp

/-- C10: only Address and City are defaulted — every returned record's
name and state are string cells taken verbatim from its source row, its
address/city are either the row's string cell or the empty string standing
in for a missing cell, and a row whose name or state cell is missing or
non-string never constructs a record. -/
theorem load_name_state_strict_address_city_defaulted (df : DataFrame)
    (h : missingCols (df.columns.map pyStrip) = [])
    (hrect : ∀ row ∈ df.rows, (df.columns.map pyStrip).length ≤ row.length) :
    (∀ b ∈ (load_blood_banks (some df)).toOption.getD [],
      ∃ row ∈ df.rows,
        getCell (df.columns.map pyStrip) row "Blood Bank Name" = Cell.str b.name ∧
        getCell (df.columns.map pyStrip) row "State" = Cell.str b.state ∧
        (getCell (df.columns.map pyStrip) row "Address" = Cell.str b.address ∨
          (getCell (df.columns.map pyStrip) row "Address" = Cell.empty ∧ b.address = "")) ∧
        (getCell (df.columns.map pyStrip) row "City" = Cell.str b.city ∨
          (getCell (df.columns.map pyStrip) row "City" = Cell.empty ∧ b.city = ""))) ∧
    (∀ row, (∀ s, getCell (df.columns.map pyStrip) row "Blood Bank Name" ≠ Cell.str s) →
      buildBank (df.columns.map pyStrip) (fillRow (df.columns.map pyStrip) row) = none) ∧
    (∀ row, (∀ s, getCell (df.columns.map pyStrip) row "State" ≠ Cell.str s) →
      buildBank (df.columns.map pyStrip) (fillRow (df.columns.map pyStrip) row) = none) := by
  refine ⟨?_, ?_, ?_⟩
  · intro b hb
    simp only [load_blood_banks, h, Except.toOption, Option.getD] at hb
    rw [List.filterMap_map] at hb
    obtain ⟨row, hrow, hbuild⟩ := List.mem_filterMap.mp hb
    obtain ⟨hnm, had, hci, hst, -, -⟩ := buildBank_fields hbuild
    rw [getCell_fillRow_ne _ _ _ (by decide) (by decide)] at hnm
    rw [getCell_fillRow_ne _ _ _ (by decide) (by decide)] at hst
    have haddr : getCell (df.columns.map pyStrip) (fillRow (df.columns.map pyStrip) row)
        "Address" = fillCell (getCell (df.columns.map pyStrip) row "Address") := by
      unfold fillRow
      rw [getCell_fillnaCol_ne _ _ _ _ (by decide)]
      exact getCell_fillnaCol_self _ row "Address"
        (mem_of_missingCols_nil h (by decide)) (hrect row hrow)
    have hcity : getCell (df.columns.map pyStrip) (fillRow (df.columns.map pyStrip) row)
        "City" = fillCell (getCell (df.columns.map pyStrip) row "City") := by
      unfold fillRow
      rw [getCell_fillnaCol_self _ _ "City" (mem_of_missingCols_nil h (by decide))
        (by rw [length_fillnaCol]; exact hrect row hrow)]
      rw [getCell_fillnaCol_ne _ _ _ _ (by decide)]
    rw [haddr] at had
    rw [hcity] at hci
    refine ⟨row, hrow, asStr_eq_some hnm, asStr_eq_some hst, ?_, ?_⟩
    · cases hcell : getCell (df.columns.map pyStrip) row "Address" with
      | empty =>
        rw [hcell] at had
        simp only [fillCell, asStr, Option.some.injEq] at had
        exact Or.inr ⟨rfl, had.symm⟩
      | str s =>
        rw [hcell] at had
        simp only [fillCell, asStr, Option.some.injEq] at had
        exact Or.inl (by rw [had])
      | num q =>
        rw [hcell] at had
        simp [fillCell, asStr] at had
    · cases hcell : getCell (df.columns.map pyStrip) row "City" with
      | empty =>
        rw [hcell] at hci
        simp only [fillCell, asStr, Option.some.injEq] at hci
        exact Or.inr ⟨rfl, hci.symm⟩
      | str s =>
        rw [hcell] at hci
        simp only [fillCell, asStr, Option.some.injEq] at hci
        exact Or.inl (by rw [hci])
      | num q =>
        rw [hcell] at hci
        simp [fillCell, asStr] at hci
  · intro row hno
    have hn : asStr (getCell (df.columns.map pyStrip)
        (fillRow (df.columns.map pyStrip) row) "Blood Bank Name") = none := by
      rw [getCell_fillRow_ne _ _ _ (by decide) (by decide)]
      cases hcell : getCell (df.columns.map pyStrip) row "Blood Bank Name" with
      | empty => rfl
      | str s => exact absurd hcell (hno s)
      | num q => rfl
    unfold buildBank
    split
    · rename_i nm ad ci st la lo h1 h2 h3 h4 h5 h6
      rw [hn] at h1
      exact Option.noConfusion h1
    · rfl
  · intro row hno
    have hn : asStr (getCell (df.columns.map pyStrip)
        (fillRow (df.columns.map pyStrip) row) "State") = none := by
      rw [getCell_fillRow_ne _ _ _ (by decide) (by decide)]
      cases hcell : getCell (df.columns.map pyStrip) row "State" with
      | empty => rfl
      | str s => exact absurd hcell (hno s)
      | num q => rfl
    unfold buildBank
    split
    · rename_i nm ad ci st la lo h1 h2 h3 h4 h5 h6
      rw [hn] at h4
      exact Option.noConfusion h4
    · rfl

/-- A concrete table for the C10 witness: a full row, a row with missing
Address/City (defaulted), and a row with a numeric name (dropped). -/
def dfFill : DataFrame :=
  DataFrame.mk
    ["Sr No", "Blood Bank Name", "Address", "City", "State", "latitude", "longitude"]
    [[Cell.str "1", Cell.str "Alpha", Cell.str "12 Way", Cell.str "Pune",
      Cell.str "MH", Cell.num 18, Cell.num 73],
     [Cell.str "2", Cell.str "Beta", Cell.empty, Cell.empty,
      Cell.str "MH", Cell.num 19, Cell.num 74],
     [Cell.str "3", Cell.num 5, Cell.str "9 Ave", Cell.str "Pune",
      Cell.str "MH", Cell.num 20, Cell.num 75]]

/-- C10 witness: the defaulting and dropping behavior on `dfFill`. -/
theorem load_name_state_strict_address_city_defaulted_witness :
    missingCols (dfFill.columns.map pyStrip) = [] ∧
    (∀ row ∈ dfFill.rows, (dfFill.columns.map pyStrip).length ≤ row.length) ∧
    ((∀ b ∈ (load_blood_banks (some dfFill)).toOption.getD [],
      ∃ row ∈ dfFill.rows,
        getCell (dfFill.columns.map pyStrip) row "Blood Bank Name" = Cell.str b.name ∧
        getCell (dfFill.columns.map pyStrip) row "State" = Cell.str b.state ∧
        (getCell (dfFill.columns.map pyStrip) row "Address" = Cell.str b.address ∨
          (getCell (dfFill.columns.map pyStrip) row "Address" = Cell.empty ∧
            b.address = "")) ∧
        (getCell (dfFill.columns.map pyStrip) row "City" = Cell.str b.city ∨
          (getCell (dfFill.columns.map pyStrip) row "City" = Cell.empty ∧
            b.city = ""))) ∧
    (∀ row, (∀ s, getCell (dfFill.columns.map pyStrip) row "Blood Bank Name" ≠
        Cell.str s) →
      buildBank (dfFill.columns.map pyStrip)
        (fillRow (dfFill.columns.map pyStrip) row) = none) ∧
    (∀ row, (∀ s, getCell (dfFill.columns.map pyStrip) row "State" ≠ Cell.str s) →
      buildBank (dfFill.columns.map pyStrip)
        (fillRow (dfFill.columns.map pyStrip) row) = none)) :=
  ⟨by decide, by decide,
    load_name_state_strict_address_city_defaulted dfFill (by decide) (by decide)⟩
